import Mathlib

/-!
Verification development for the `sql` package (a thin, context-aware adapter
layer over the Go standard `database/sql` package, source file `sql.go`).

The embedding has two layers:

* namespace `DatabaseSql` models the external native handles of the standard
  `database/sql` package that the adapter wraps.  A native handle is a record
  of response functions (one per native method the adapter calls); the native
  transaction handle additionally carries the documented transaction state,
  since `database/sql` rejects `Commit`/`Rollback` on a finished transaction
  with its `ErrTxDone` error.  These records let the theorems quantify over
  every possible native behavior, exactly the fake-handle substitution the
  spec describes.

* namespace `Sql` is the shallow embedding of `sql.go` itself: the alias
  layer, the wrapper structs `db`, `stmt`, `tx` (each holding one native
  handle, as the Go structs embed one native pointer), every wrapper method
  translated line by line from the source, the constructors `Open` and
  `OpenDB`, the `Scanner` interface, and the method-signature sets of the
  declared interfaces `DB`, `Conn`, `Stmt`, `Tx` used for the structural
  interface-satisfaction claims.

Go interface values that may be nil are modelled as `Option`; a Go
`(value, error)` pair whose two components are tied (one nil exactly when the
other is not) is modelled as `Except`, and a standalone `error` result as
`Option Err` (`none` = nil error).
-/

/-- Models a Go `error` value abstractly; distinct codes are distinct errors. -/
structure Err where
  code : Nat
deriving DecidableEq, Repr

/-- Models `context.Context`: an opaque token threaded through every blocking call. -/
structure Ctx where
  id : Nat
deriving DecidableEq, Repr

/-- Models a Go `interface\x7b\x7d` argument or scan destination: opaque. -/
structure Arg where
  v : Nat
deriving DecidableEq, Repr

/-- Go `bool` (named so that structure fields may carry their Go field names). -/
abbrev GoBool := Bool

/-- Go `string`. -/
abbrev GoString := String

/-- Go `int32`/`int64`/`int`, modelled as unbounded integers (no arithmetic is claimed). -/
abbrev GoInt := Int

/-- Go `float64`, modelled as an opaque bit pattern (no float arithmetic is claimed). -/
structure GoFloat64 where
  bits : Nat
deriving DecidableEq, Repr

/-- Go `time.Time`, opaque. -/
structure GoTime where
  unixNano : Int
deriving DecidableEq, Repr

namespace DatabaseSql

/-- Models `database/sql/driver.Driver`, the low-level driver object: opaque. -/
structure Driver where
  id : Nat
deriving DecidableEq, Repr

/-- Models `database/sql.IsolationLevel` (a Go `int`). -/
abbrev IsolationLevel := Int

/-- Models `database/sql.TxOptions` with its two fields. -/
structure TxOptions where
  Isolation : IsolationLevel
  ReadOnly : GoBool
deriving DecidableEq, Repr

/-- Models `database/sql.Result`: the summary of an Exec, with its two accessors. -/
structure Result where
  LastInsertId : Except Err GoInt
  RowsAffected : Except Err GoInt
deriving Repr

/-- Models `*database/sql.Row`: a single-row handle whose `Scan` populates
destinations and reports the deferred error. -/
structure Row where
  Scan : List Arg → Option Err

/-- Models `*database/sql.Rows`: a row-set handle; only its `Scan` method is
relevant to this layer (the row cursor is opaque to the adapter). -/
structure Rows where
  Scan : List Arg → Option Err

/-- Models `database/sql.NamedArg` with its two fields. -/
structure NamedArg where
  Name : GoString
  Value : Arg
deriving DecidableEq, Repr

/-- Models `database/sql.NullBool`. -/
structure NullBool where
  Bool : GoBool
  Valid : GoBool
deriving DecidableEq, Repr

/-- Models `database/sql.NullFloat64`. -/
structure NullFloat64 where
  Float64 : GoFloat64
  Valid : GoBool
deriving DecidableEq, Repr

/-- Models `database/sql.NullInt32`. -/
structure NullInt32 where
  Int32 : GoInt
  Valid : GoBool
deriving DecidableEq, Repr

/-- Models `database/sql.NullInt64`. -/
structure NullInt64 where
  Int64 : GoInt
  Valid : GoBool
deriving DecidableEq, Repr

/-- Models `database/sql.NullString`. -/
structure NullString where
  String : GoString
  Valid : GoBool
deriving DecidableEq, Repr

/-- Models `database/sql.NullTime`. -/
structure NullTime where
  Time : GoTime
  Valid : GoBool
deriving DecidableEq, Repr

/-- Models `database/sql.Out` (an output parameter marker). -/
structure Out where
  Dest : Arg
  In : GoBool
deriving DecidableEq, Repr

/-- Models `database/sql.RawBytes` (a Go byte slice). -/
abbrev RawBytes := List Nat

/-- Models `database/sql.DBStats` with its statistics fields. -/
structure DBStats where
  MaxOpenConnections : GoInt
  OpenConnections : GoInt
  InUse : GoInt
  Idle : GoInt
  WaitCount : GoInt
  WaitDuration : GoInt
  MaxIdleClosed : GoInt
  MaxIdleTimeClosed : GoInt
  MaxLifetimeClosed : GoInt
deriving DecidableEq, Repr

/-- Models `*database/sql.Stmt`, a native prepared-statement handle, as the
record of its responses to the methods the adapter calls.  Quantifying over
this record quantifies over every possible native statement behavior. -/
structure Stmt where
  ExecContext : Ctx → List Arg → Except Err Result
  QueryContext : Ctx → List Arg → Except Err Rows
  QueryRowContext : Ctx → List Arg → Row
  Close : Option Err

/-- The documented state of a native `database/sql` transaction: open until the
first Commit or Rollback, then permanently finished. -/
inductive TxState where
  | opened
  | committed
  | rolledBack
deriving DecidableEq, Repr

/-- The distinguished native error `database/sql.ErrTxDone`, returned by the
native handle when Commit or Rollback is called on a finished transaction. -/
def errTxDone : Err := ⟨1⟩

/-- Models `*database/sql.Tx`, a native transaction handle: its documented
commit state plus the record of its responses to the methods the adapter
calls.  `commitDriver`/`rollbackDriver` are the errors (if any) the underlying
driver reports on the first, state-changing call. -/
structure Tx where
  state : TxState
  commitDriver : Option Err
  rollbackDriver : Option Err
  PrepareContext : Ctx → GoString → Except Err Stmt
  ExecContext : Ctx → GoString → List Arg → Except Err Result
  QueryContext : Ctx → GoString → List Arg → Except Err Rows
  QueryRowContext : Ctx → GoString → List Arg → Row

/-- The native `Tx.Commit`, per the documented `database/sql` contract: on an
open transaction it finishes the transaction and reports the driver's error;
on a finished transaction it returns `ErrTxDone` and changes nothing. -/
def Tx.Commit (t : Tx) : Tx × Option Err :=
  match t.state with
  | .opened => ({ t with state := .committed }, t.commitDriver)
  | _ => (t, some errTxDone)

/-- The native `Tx.Rollback`, per the documented `database/sql` contract. -/
def Tx.Rollback (t : Tx) : Tx × Option Err :=
  match t.state with
  | .opened => ({ t with state := .rolledBack }, t.rollbackDriver)
  | _ => (t, some errTxDone)

/-- Models `*database/sql.DB`, a native pooled-database handle, as the record
of its responses to the methods the adapter calls (plus the promoted methods
`Driver` and `Close` that the adapter's structs inherit by embedding). -/
structure DB where
  PingContext : Ctx → Option Err
  PrepareContext : Ctx → GoString → Except Err Stmt
  ExecContext : Ctx → GoString → List Arg → Except Err Result
  QueryContext : Ctx → GoString → List Arg → Except Err Rows
  QueryRowContext : Ctx → GoString → List Arg → Row
  BeginTx : Ctx → Option TxOptions → Except Err Tx
  Driver : Driver
  Close : Option Err

/-- Models `database/sql/driver.Connector`: per the native API, a connector
fully determines the database handle that `sql.OpenDB` builds from it. -/
structure Connector where
  builds : DB

/-- The native `sql.OpenDB`: its Go signature `func OpenDB(c driver.Connector) *DB`
has no error result; it always yields the handle the connector determines. -/
def OpenDB (c : Connector) : DB := c.builds

end DatabaseSql

/-- The error component of a Go `(value, error)` pair modelled as `Except`. -/
def errOf {α : Type} : Except Err α → Option Err
  | .error e => some e
  | .ok _ => none

/-- The value component of a Go `(value, error)` pair modelled as `Except`. -/
def okOf {α : Type} : Except Err α → Option α
  | .error _ => none
  | .ok a => some a

/-- Whether a Go `(value, error)` pair is the success case. -/
def isOkB {α : Type} : Except Err α → Bool
  | .error _ => false
  | .ok _ => true

namespace Sql

/-! ### The alias layer of `sql.go` (lines 61-77)

The Go source re-exports these as type aliases (`=`, not new defined types),
so each name here is an `abbrev`: definitionally the native type itself. -/

/-- Alias `TxOptions = sql.TxOptions` from the source. -/
abbrev TxOptions := DatabaseSql.TxOptions

/-- Alias `Row = sql.Row` from the source. -/
abbrev Row := DatabaseSql.Row

/-- Alias `Rows = sql.Rows` from the source. -/
abbrev Rows := DatabaseSql.Rows

/-- Alias `IsolationLevel = sql.IsolationLevel` from the source. -/
abbrev IsolationLevel := DatabaseSql.IsolationLevel

/-- Alias `Result = sql.Result` from the source. -/
abbrev Result := DatabaseSql.Result

/-- Alias `NamedArg = sql.NamedArg` from the source. -/
abbrev NamedArg := DatabaseSql.NamedArg

/-- Alias `NullBool = sql.NullBool` from the source. -/
abbrev NullBool := DatabaseSql.NullBool

/-- Alias `NullFloat64 = sql.NullFloat64` from the source. -/
abbrev NullFloat64 := DatabaseSql.NullFloat64

/-- Alias `NullInt32 = sql.NullInt32` from the source. -/
abbrev NullInt32 := DatabaseSql.NullInt32

/-- Alias `NullInt64 = sql.NullInt64` from the source. -/
abbrev NullInt64 := DatabaseSql.NullInt64

/-- Alias `NullString = sql.NullString` from the source. -/
abbrev NullString := DatabaseSql.NullString

/-- Alias `NullTime = sql.NullTime` from the source. -/
abbrev NullTime := DatabaseSql.NullTime

/-- Alias `Out = sql.Out` from the source. -/
abbrev Out := DatabaseSql.Out

/-- Alias `RawBytes = sql.RawBytes` from the source. -/
abbrev RawBytes := DatabaseSql.RawBytes

/-- Alias `DBStats = sql.DBStats` from the source. -/
abbrev DBStats := DatabaseSql.DBStats

/-! ### The concrete wrapper structs of `sql.go` (lines 79-90) -/

/-- The struct `db` of the source: embeds one native `*sql.DB`. -/
structure db where
  DB : DatabaseSql.DB

/-- The struct `stmt` of the source: embeds one native `*sql.Stmt`. -/
structure stmt where
  Stmt : DatabaseSql.Stmt

/-- The struct `tx` of the source: embeds one native `*sql.Tx`. -/
structure tx where
  Tx : DatabaseSql.Tx

/-! ### Wrapper methods, translated line by line from `sql.go` -/

/-- Source lines 92-94: `func (d db) StdDB() *sql.DB \x7b return d.DB \x7d`. -/
def db.StdDB (d : db) : DatabaseSql.DB := d.DB

/-- Source lines 96-102: `Open` forwards to the native `sql.Open` (supplied as
a parameter, since it is external behavior) and wraps the handle on success.
Returns `(nil, err)` on native failure and `(db\x7bresult\x7d, nil)` on success. -/
def Open (nativeOpen : GoString → GoString → Except Err DatabaseSql.DB)
    (driverName dataSourceName : GoString) : Option db × Option Err :=
  match nativeOpen driverName dataSourceName with
  | .error err => (none, some err)
  | .ok result => (some ⟨result⟩, none)

/-- Source lines 104-106: `OpenDB` wraps `sql.OpenDB(c)` and returns a nil error. -/
def OpenDB (c : DatabaseSql.Connector) : Option db × Option Err :=
  (some ⟨DatabaseSql.OpenDB c⟩, none)

/-- Source lines 108-110: `db.Ping` forwards to `d.DB.PingContext(ctx)`. -/
def db.Ping (d : db) (ctx : Ctx) : Option Err :=
  d.DB.PingContext ctx

/-- Source lines 112-118: `db.Prepare` forwards to `d.DB.PrepareContext`,
returning `(nil, err)` on failure and `(stmt\x7bresult\x7d, nil)` on success. -/
def db.Prepare (d : db) (ctx : Ctx) (query : GoString) : Option stmt × Option Err :=
  match d.DB.PrepareContext ctx query with
  | .error err => (none, some err)
  | .ok result => (some ⟨result⟩, none)

/-- Source lines 120-122: `db.Exec` forwards to `d.DB.ExecContext`. -/
def db.Exec (d : db) (ctx : Ctx) (query : GoString) (args : List Arg) : Except Err Result :=
  d.DB.ExecContext ctx query args

/-- Source lines 124-126: `db.Query` forwards to `d.DB.QueryContext`. -/
def db.Query (d : db) (ctx : Ctx) (query : GoString) (args : List Arg) : Except Err Rows :=
  d.DB.QueryContext ctx query args

/-- Source lines 128-130: `db.QueryRow` forwards to `d.DB.QueryRowContext`. -/
def db.QueryRow (d : db) (ctx : Ctx) (query : GoString) (args : List Arg) : Row :=
  d.DB.QueryRowContext ctx query args

/-- Source lines 132-138: `db.BeginTx` forwards to `d.DB.BeginTx`, returning
`(nil, err)` on failure and `(tx\x7bresult\x7d, nil)` on success. -/
def db.BeginTx (d : db) (ctx : Ctx) (opts : Option TxOptions) : Option tx × Option Err :=
  match d.DB.BeginTx ctx opts with
  | .error err => (none, some err)
  | .ok result => (some ⟨result⟩, none)

/-- The method `Driver` the struct `db` inherits by embedding `*sql.DB` (Go
method promotion): forwards to the native accessor. -/
def db.Driver (d : db) : DatabaseSql.Driver := d.DB.Driver

/-- The method `Close` the struct `db` inherits by embedding `*sql.DB`. -/
def db.Close (d : db) : Option Err := d.DB.Close

/-- Source lines 140-142: `stmt.StdStmt` returns the embedded handle. -/
def stmt.StdStmt (s : stmt) : DatabaseSql.Stmt := s.Stmt

/-- Source lines 144-146: `stmt.Exec` forwards to `d.Stmt.ExecContext`. -/
def stmt.Exec (s : stmt) (ctx : Ctx) (args : List Arg) : Except Err Result :=
  s.Stmt.ExecContext ctx args

/-- Source lines 148-150: `stmt.Query` forwards to `d.Stmt.QueryContext`. -/
def stmt.Query (s : stmt) (ctx : Ctx) (args : List Arg) : Except Err Rows :=
  s.Stmt.QueryContext ctx args

/-- Source lines 152-154: `stmt.QueryRow` forwards to `d.Stmt.QueryRowContext`. -/
def stmt.QueryRow (s : stmt) (ctx : Ctx) (args : List Arg) : Row :=
  s.Stmt.QueryRowContext ctx args

/-- The method `Close` the struct `stmt` inherits by embedding `*sql.Stmt`
(Go method promotion): forwards to the native close. -/
def stmt.Close (s : stmt) : Option Err := s.Stmt.Close

/-- Source lines 156-158: `tx.StdTx` returns the embedded handle. -/
def tx.StdTx (t : tx) : DatabaseSql.Tx := t.Tx

/-- The method `Commit` the struct `tx` inherits by embedding `*sql.Tx` (Go
method promotion): the call goes to the native handle unchanged; the wrapper
adds no state of its own, so the resulting wrapper is just the resulting
native handle re-wrapped. -/
def tx.Commit (t : tx) : tx × Option Err :=
  (⟨(t.Tx.Commit).1⟩, (t.Tx.Commit).2)

/-- The method `Rollback` the struct `tx` inherits by embedding `*sql.Tx`. -/
def tx.Rollback (t : tx) : tx × Option Err :=
  (⟨(t.Tx.Rollback).1⟩, (t.Tx.Rollback).2)

/-- Source lines 160-166: `tx.Prepare` forwards to `t.PrepareContext`,
returning `(nil, err)` on failure and `(stmt\x7bresult\x7d, nil)` on success. -/
def tx.Prepare (t : tx) (ctx : Ctx) (query : GoString) : Option stmt × Option Err :=
  match t.Tx.PrepareContext ctx query with
  | .error err => (none, some err)
  | .ok result => (some ⟨result⟩, none)

/-- Source lines 168-170: `tx.Exec` forwards to `t.ExecContext`. -/
def tx.Exec (t : tx) (ctx : Ctx) (query : GoString) (args : List Arg) : Except Err Result :=
  t.Tx.ExecContext ctx query args

/-- Source lines 172-174: `tx.Query` forwards to `t.QueryContext`. -/
def tx.Query (t : tx) (ctx : Ctx) (query : GoString) (args : List Arg) : Except Err Rows :=
  t.Tx.QueryContext ctx query args

/-- Source lines 176-178: `tx.QueryRow` forwards to `t.QueryRowContext`. -/
def tx.QueryRow (t : tx) (ctx : Ctx) (query : GoString) (args : List Arg) : Row :=
  t.Tx.QueryRowContext ctx query args

/-- Source lines 182-184: the `Scanner` interface, as a record of its one
required method `Scan(...interface\x7b\x7d) error`. -/
structure Scanner where
  Scan : List Arg → Option Err

/-- The view of a native `*sql.Row` as a `Scanner`: its own `Scan` method,
with no adaptation. -/
def rowAsScanner (r : Row) : Scanner := ⟨r.Scan⟩

/-- The view of a native `*sql.Rows` as a `Scanner`: its own `Scan` method,
with no adaptation. -/
def rowsAsScanner (rs : Rows) : Scanner := ⟨rs.Scan⟩

/-- Source lines 186-189: `Named` forwards to `sql.Named(name, value)`, which
builds the named-argument value with exactly those two fields. -/
def Named (name : GoString) (value : Arg) : NamedArg := ⟨name, value⟩

end Sql

namespace Sql

/-! ### The method-signature model of Go structural interface satisfaction

Go checks interface satisfaction structurally at compile time: a type
satisfies an interface exactly when its method set (declared methods plus
methods promoted from embedded fields) contains every method of the interface
with a matching signature.  Each distinct name-and-signature pair occurring in
the four interfaces of `sql.go` (lines 19-56) is one constructor below;
signatures that differ (for example `Exec(ctx, query, args...)` on DB/Conn/Tx
versus `Exec(ctx, args...)` on Stmt) get distinct constructors. -/

/-- One method name-and-signature pair of the interfaces declared in `sql.go`. -/
inductive MethodSig where
  | ping
  | prepareQ
  | beginTx
  | execQ
  | queryQ
  | queryRowQ
  | driver
  | stdDB
  | close
  | stdConn
  | execA
  | queryA
  | queryRowA
  | stdStmt
  | commit
  | rollback
  | stdTx
deriving DecidableEq, Repr

/-- The methods the `DB` interface requires (source lines 20-29). -/
def DBMethods : List MethodSig :=
  [.ping, .prepareQ, .beginTx, .execQ, .queryQ, .queryRowQ, .driver, .stdDB]

/-- The methods the `Conn` interface requires (source lines 30-39). -/
def ConnMethods : List MethodSig :=
  [.ping, .prepareQ, .beginTx, .execQ, .queryQ, .queryRowQ, .close, .stdConn]

/-- The methods the `Stmt` interface requires (source lines 40-46). -/
def StmtMethods : List MethodSig :=
  [.execA, .queryA, .queryRowA, .close, .stdStmt]

/-- The methods the `Tx` interface requires (source lines 47-55). -/
def TxMethods : List MethodSig :=
  [.commit, .rollback, .prepareQ, .execQ, .queryQ, .queryRowQ, .stdTx]

/-- The method set of the struct `db`: its declared methods (source lines
92-138) plus the methods promoted from the embedded `*sql.DB`.  Promoted
methods are listed only when their name-and-signature pair occurs in one of
the four interfaces (others cannot affect satisfaction): `Driver() driver.Driver`
and `Close() error` are promoted; `*sql.DB` has no method `StdConn`. -/
def dbMethodSet : List MethodSig :=
  [.stdDB, .ping, .prepareQ, .execQ, .queryQ, .queryRowQ, .beginTx, .driver, .close]

/-- The method set of the struct `stmt`: its declared methods (source lines
140-154) plus `Close() error` promoted from the embedded `*sql.Stmt`; `*sql.Stmt`
has no method `StdConn`. -/
def stmtMethodSet : List MethodSig :=
  [.stdStmt, .execA, .queryA, .queryRowA, .close]

/-- The method set of the struct `tx`: its declared methods (source lines
156-178) plus `Commit() error` and `Rollback() error` promoted from the
embedded `*sql.Tx`; `*sql.Tx` has no method `Close` or `StdConn`. -/
def txMethodSet : List MethodSig :=
  [.stdTx, .prepareQ, .execQ, .queryQ, .queryRowQ, .commit, .rollback]

/-- Go structural satisfaction: the type's method set contains every required
method of the interface. -/
def satisfiesIface (methodSet required : List MethodSig) : Bool :=
  required.all (fun m => methodSet.contains m)

/-- The method sets of all concrete wrapper structs declared in `sql.go`
(lines 79-90): `db`, `stmt` and `tx` are the only ones. -/
def wrapperMethodSets : List (List MethodSig) :=
  [dbMethodSet, stmtMethodSet, txMethodSet]

end Sql

namespace Sql

/-! ### Pointer-level rendering of the wrapper methods

Each Go wrapper struct embeds a native *pointer*, whose zero value is nil.
`PtrOps` renders each method body at that level: the body dereferences the
embedded pointer and calls the native method, with no nil check and no error
branch in between, so on a nil handle the call faults instead of returning an
error.  `Res` is the outcome of such a call: `ok` with the native result, or
`nilDeref` for the fault. -/

/-- Outcome of calling a wrapper method: the delegated native result, or a
nil-pointer fault when the embedded handle is nil. -/
inductive Res (α : Type) where
  | ok : α → Res α
  | nilDeref : Res α
deriving Repr

/-- Dereference the embedded native pointer and delegate — the one and only
thing every wrapper method body does. -/
def deref {α β : Type} (h : Option α) (call : α → β) : Res β :=
  match h with
  | none => Res.nilDeref
  | some handle => Res.ok (call handle)

/-- `db.Ping` at pointer level: `d.DB.PingContext(ctx)` on the embedded pointer. -/
def db.PingP (h : Option DatabaseSql.DB) (ctx : Ctx) : Res (Option Err) :=
  deref h (fun d => d.PingContext ctx)

/-- `db.Prepare` at pointer level. -/
def db.PrepareP (h : Option DatabaseSql.DB) (ctx : Ctx) (query : GoString) :
    Res (Except Err DatabaseSql.Stmt) :=
  deref h (fun d => d.PrepareContext ctx query)

/-- `db.BeginTx` at pointer level. -/
def db.BeginTxP (h : Option DatabaseSql.DB) (ctx : Ctx) (opts : Option TxOptions) :
    Res (Except Err DatabaseSql.Tx) :=
  deref h (fun d => d.BeginTx ctx opts)

/-- `db.Exec` at pointer level. -/
def db.ExecP (h : Option DatabaseSql.DB) (ctx : Ctx) (query : GoString) (args : List Arg) :
    Res (Except Err Result) :=
  deref h (fun d => d.ExecContext ctx query args)

/-- `db.Query` at pointer level. -/
def db.QueryP (h : Option DatabaseSql.DB) (ctx : Ctx) (query : GoString) (args : List Arg) :
    Res (Except Err Rows) :=
  deref h (fun d => d.QueryContext ctx query args)

/-- `db.QueryRow` at pointer level. -/
def db.QueryRowP (h : Option DatabaseSql.DB) (ctx : Ctx) (query : GoString) (args : List Arg) :
    Res Row :=
  deref h (fun d => d.QueryRowContext ctx query args)

/-- `stmt.Exec` at pointer level. -/
def stmt.ExecP (h : Option DatabaseSql.Stmt) (ctx : Ctx) (args : List Arg) :
    Res (Except Err Result) :=
  deref h (fun s => s.ExecContext ctx args)

/-- `stmt.Query` at pointer level. -/
def stmt.QueryP (h : Option DatabaseSql.Stmt) (ctx : Ctx) (args : List Arg) :
    Res (Except Err Rows) :=
  deref h (fun s => s.QueryContext ctx args)

/-- `stmt.QueryRow` at pointer level. -/
def stmt.QueryRowP (h : Option DatabaseSql.Stmt) (ctx : Ctx) (args : List Arg) : Res Row :=
  deref h (fun s => s.QueryRowContext ctx args)

/-- `stmt.Close` at pointer level. -/
def stmt.CloseP (h : Option DatabaseSql.Stmt) : Res (Option Err) :=
  deref h (fun s => s.Close)

/-- `tx.Commit` at pointer level. -/
def tx.CommitP (h : Option DatabaseSql.Tx) : Res (DatabaseSql.Tx × Option Err) :=
  deref h (fun t => t.Commit)

/-- `tx.Rollback` at pointer level. -/
def tx.RollbackP (h : Option DatabaseSql.Tx) : Res (DatabaseSql.Tx × Option Err) :=
  deref h (fun t => t.Rollback)

/-- `tx.Prepare` at pointer level. -/
def tx.PrepareP (h : Option DatabaseSql.Tx) (ctx : Ctx) (query : GoString) :
    Res (Except Err DatabaseSql.Stmt) :=
  deref h (fun t => t.PrepareContext ctx query)

/-- `tx.Exec` at pointer level. -/
def tx.ExecP (h : Option DatabaseSql.Tx) (ctx : Ctx) (query : GoString) (args : List Arg) :
    Res (Except Err Result) :=
  deref h (fun t => t.ExecContext ctx query args)

/-- `tx.Query` at pointer level. -/
def tx.QueryP (h : Option DatabaseSql.Tx) (ctx : Ctx) (query : GoString) (args : List Arg) :
    Res (Except Err Rows) :=
  deref h (fun t => t.QueryContext ctx query args)

/-- `tx.QueryRow` at pointer level. -/
def tx.QueryRowP (h : Option DatabaseSql.Tx) (ctx : Ctx) (query : GoString) (args : List Arg) :
    Res Row :=
  deref h (fun t => t.QueryRowContext ctx query args)

end Sql

/-! ### Sample concrete native handles (used by witnesses) -/

/-- A concrete native row. -/
def sampleRow : DatabaseSql.Row := ⟨fun _ => none⟩

/-- A concrete native row set. -/
def sampleRows : DatabaseSql.Rows := ⟨fun _ => none⟩

/-- A concrete native result summary. -/
def sampleResult : DatabaseSql.Result := ⟨Except.ok 0, Except.ok 0⟩

/-- A concrete native prepared statement. -/
def sampleStmt : DatabaseSql.Stmt :=
  ⟨fun _ _ => Except.ok sampleResult, fun _ _ => Except.ok sampleRows,
   fun _ _ => sampleRow, none⟩

/-- A concrete open native transaction whose driver commits and rolls back
without error. -/
def sampleOpenTx : DatabaseSql.Tx :=
  ⟨DatabaseSql.TxState.opened, none, none,
   fun _ _ => Except.ok sampleStmt,
   fun _ _ _ => Except.ok sampleResult,
   fun _ _ _ => Except.ok sampleRows,
   fun _ _ _ => sampleRow⟩

/-- A concrete native transaction that has already been committed. -/
def sampleDoneTx : DatabaseSql.Tx :=
  { sampleOpenTx with state := DatabaseSql.TxState.committed }

/-! ## Theorems -/

/-- C1: every wrapper operation is pure forwarding — given the native handle's
response, each wrapper method returns exactly that result (for the
wrapper-producing operations, exactly that error, and a wrapper whose unwrap
is exactly the native result), with the same arguments passed through and no
wrapping, translation, or swallowing of errors. -/
theorem C1_pure_forwarding :
    (∀ (d : Sql.db) (ctx : Ctx), d.Ping ctx = d.DB.PingContext ctx) ∧
    (∀ (d : Sql.db) (ctx : Ctx) (q : GoString),
      (d.Prepare ctx q).2 = errOf (d.DB.PrepareContext ctx q) ∧
      Option.map Sql.stmt.StdStmt (d.Prepare ctx q).1 = okOf (d.DB.PrepareContext ctx q)) ∧
    (∀ (d : Sql.db) (ctx : Ctx) (opts : Option Sql.TxOptions),
      (d.BeginTx ctx opts).2 = errOf (d.DB.BeginTx ctx opts) ∧
      Option.map Sql.tx.StdTx (d.BeginTx ctx opts).1 = okOf (d.DB.BeginTx ctx opts)) ∧
    (∀ (d : Sql.db) (ctx : Ctx) (q : GoString) (args : List Arg),
      d.Exec ctx q args = d.DB.ExecContext ctx q args ∧
      d.Query ctx q args = d.DB.QueryContext ctx q args ∧
      d.QueryRow ctx q args = d.DB.QueryRowContext ctx q args) ∧
    (∀ (s : Sql.stmt) (ctx : Ctx) (args : List Arg),
      s.Exec ctx args = s.Stmt.ExecContext ctx args ∧
      s.Query ctx args = s.Stmt.QueryContext ctx args ∧
      s.QueryRow ctx args = s.Stmt.QueryRowContext ctx args) ∧
    (∀ s : Sql.stmt, s.Close = s.Stmt.Close) ∧
    (∀ t : Sql.tx,
      (t.Commit).2 = (t.Tx.Commit).2 ∧ (t.Commit).1.Tx = (t.Tx.Commit).1 ∧
      (t.Rollback).2 = (t.Tx.Rollback).2 ∧ (t.Rollback).1.Tx = (t.Tx.Rollback).1) ∧
    (∀ (t : Sql.tx) (ctx : Ctx) (q : GoString),
      (t.Prepare ctx q).2 = errOf (t.Tx.PrepareContext ctx q) ∧
      Option.map Sql.stmt.StdStmt (t.Prepare ctx q).1 = okOf (t.Tx.PrepareContext ctx q)) ∧
    (∀ (t : Sql.tx) (ctx : Ctx) (q : GoString) (args : List Arg),
      t.Exec ctx q args = t.Tx.ExecContext ctx q args ∧
      t.Query ctx q args = t.Tx.QueryContext ctx q args ∧
      t.QueryRow ctx q args = t.Tx.QueryRowContext ctx q args) := by
  refine ⟨fun d ctx => rfl, ?_, ?_, fun d ctx q args => ⟨rfl, rfl, rfl⟩,
    fun s ctx args => ⟨rfl, rfl, rfl⟩, fun s => rfl, fun t => ⟨rfl, rfl, rfl, rfl⟩,
    ?_, fun t ctx q args => ⟨rfl, rfl, rfl⟩⟩
  · intro d ctx q
    cases h : d.DB.PrepareContext ctx q <;>
      simp [Sql.db.Prepare, Sql.stmt.StdStmt, errOf, okOf, h]
  · intro d ctx opts
    cases h : d.DB.BeginTx ctx opts <;>
      simp [Sql.db.BeginTx, Sql.tx.StdTx, errOf, okOf, h]
  · intro t ctx q
    cases h : t.Tx.PrepareContext ctx q <;>
      simp [Sql.tx.Prepare, Sql.stmt.StdStmt, errOf, okOf, h]

/-- C2 counterexample: the claim that this layer provides a concrete wrapper
satisfying the Conn interface is false — none of the three concrete wrapper
structs declared in the source (db, stmt, tx) has the `StdConn` method that
Conn requires, so none satisfies Conn. -/
theorem C2_counterexample :
    Sql.satisfiesIface Sql.dbMethodSet Sql.ConnMethods = false ∧
    Sql.satisfiesIface Sql.stmtMethodSet Sql.ConnMethods = false ∧
    Sql.satisfiesIface Sql.txMethodSet Sql.ConnMethods = false := by
  decide

/-- C2 (amended): the source declares the Conn interface, but provides no
concrete implementation of it in this layer — every concrete wrapper struct
it declares lacks `StdConn` and therefore fails to satisfy Conn. -/
theorem C2_no_conn_implementation :
    Sql.wrapperMethodSets.all
      (fun ms => !(ms.contains Sql.MethodSig.stdConn) &&
        !(Sql.satisfiesIface ms Sql.ConnMethods)) = true := by
  decide

/-- C3: `OpenDB` has no error path — for every connector it returns a nil
error together with a usable DB wrapper around the native handle that the
connector determines. -/
theorem C3_OpenDB_infallible :
    ∀ c : DatabaseSql.Connector,
      (Sql.OpenDB c).2 = none ∧
      (Sql.OpenDB c).1 = some (Sql.db.mk (DatabaseSql.OpenDB c)) :=
  fun _ => ⟨rfl, rfl⟩

/-- C4: each wrapper-producing operation (Open, db.Prepare, db.BeginTx,
tx.Prepare) yields a nil error exactly when the delegated native call
succeeds; on native failure it returns that native error with a nil-equivalent
wrapper, and on success a wrapper around exactly the native result. -/
theorem C4_wrapper_iff_native_success :
    (∀ (nativeOpen : GoString → GoString → Except Err DatabaseSql.DB) (dn dsn : GoString),
      (Sql.Open nativeOpen dn dsn).2 = errOf (nativeOpen dn dsn) ∧
      ((Sql.Open nativeOpen dn dsn).1).isSome = isOkB (nativeOpen dn dsn) ∧
      Option.map Sql.db.StdDB (Sql.Open nativeOpen dn dsn).1 = okOf (nativeOpen dn dsn)) ∧
    (∀ (d : Sql.db) (ctx : Ctx) (q : GoString),
      (d.Prepare ctx q).2 = errOf (d.DB.PrepareContext ctx q) ∧
      ((d.Prepare ctx q).1).isSome = isOkB (d.DB.PrepareContext ctx q) ∧
      Option.map Sql.stmt.StdStmt (d.Prepare ctx q).1 = okOf (d.DB.PrepareContext ctx q)) ∧
    (∀ (d : Sql.db) (ctx : Ctx) (opts : Option Sql.TxOptions),
      (d.BeginTx ctx opts).2 = errOf (d.DB.BeginTx ctx opts) ∧
      ((d.BeginTx ctx opts).1).isSome = isOkB (d.DB.BeginTx ctx opts) ∧
      Option.map Sql.tx.StdTx (d.BeginTx ctx opts).1 = okOf (d.DB.BeginTx ctx opts)) ∧
    (∀ (t : Sql.tx) (ctx : Ctx) (q : GoString),
      (t.Prepare ctx q).2 = errOf (t.Tx.PrepareContext ctx q) ∧
      ((t.Prepare ctx q).1).isSome = isOkB (t.Tx.PrepareContext ctx q) ∧
      Option.map Sql.stmt.StdStmt (t.Prepare ctx q).1 = okOf (t.Tx.PrepareContext ctx q)) := by
  refine ⟨?_, ?_, ?_, ?_⟩
  · intro nativeOpen dn dsn
    cases h : nativeOpen dn dsn <;>
      simp [Sql.Open, Sql.db.StdDB, errOf, okOf, isOkB, h]
  · intro d ctx q
    cases h : d.DB.PrepareContext ctx q <;>
      simp [Sql.db.Prepare, Sql.stmt.StdStmt, errOf, okOf, isOkB, h]
  · intro d ctx opts
    cases h : d.DB.BeginTx ctx opts <;>
      simp [Sql.db.BeginTx, Sql.tx.StdTx, errOf, okOf, isOkB, h]
  · intro t ctx q
    cases h : t.Tx.PrepareContext ctx q <;>
      simp [Sql.tx.Prepare, Sql.stmt.StdStmt, errOf, okOf, isOkB, h]

/-- C5: each concrete wrapper struct satisfies its declared interface
structurally — db provides every method DB requires, stmt every method Stmt
requires, tx every method Tx requires — a decidable fact of the declarations,
established here (as in Go) statically, with no runtime check. -/
theorem C5_interface_conformance :
    Sql.satisfiesIface Sql.dbMethodSet Sql.DBMethods = true ∧
    Sql.satisfiesIface Sql.stmtMethodSet Sql.StmtMethods = true ∧
    Sql.satisfiesIface Sql.txMethodSet Sql.TxMethods = true := by
  decide

/-- C6: the transaction state machine is open to committed or rolled-back with
absorbing terminal states.  The tx wrapper tracks no state of its own (Commit
forwards to the native handle unchanged, both error and resulting handle);
committing twice yields the native transaction-already-finished error on the
second call; and in either terminal state Commit and Rollback return that
error and leave the state unchanged. -/
theorem C6_commit_state_machine :
    (∀ t : Sql.tx,
      (t.Commit).1.Tx = (t.Tx.Commit).1 ∧ (t.Commit).2 = (t.Tx.Commit).2) ∧
    (∀ t : Sql.tx, t.Tx.state = DatabaseSql.TxState.opened →
      ((t.Commit).1.Commit).2 = some DatabaseSql.errTxDone ∧
      (t.Commit).1.Tx.state = DatabaseSql.TxState.committed) ∧
    (∀ t : Sql.tx, t.Tx.state = DatabaseSql.TxState.committed →
      (t.Commit).2 = some DatabaseSql.errTxDone ∧
      (t.Commit).1.Tx.state = DatabaseSql.TxState.committed ∧
      (t.Rollback).2 = some DatabaseSql.errTxDone ∧
      (t.Rollback).1.Tx.state = DatabaseSql.TxState.committed) ∧
    (∀ t : Sql.tx, t.Tx.state = DatabaseSql.TxState.rolledBack →
      (t.Commit).2 = some DatabaseSql.errTxDone ∧
      (t.Commit).1.Tx.state = DatabaseSql.TxState.rolledBack ∧
      (t.Rollback).2 = some DatabaseSql.errTxDone ∧
      (t.Rollback).1.Tx.state = DatabaseSql.TxState.rolledBack) := by
  refine ⟨fun t => ⟨rfl, rfl⟩, ?_, ?_, ?_⟩
  · rintro ⟨⟨st, ce, re, p, e, q, qr⟩⟩ h
    cases h
    exact ⟨rfl, rfl⟩
  · rintro ⟨⟨st, ce, re, p, e, q, qr⟩⟩ h
    cases h
    exact ⟨rfl, rfl, rfl, rfl⟩
  · rintro ⟨⟨st, ce, re, p, e, q, qr⟩⟩ h
    cases h
    exact ⟨rfl, rfl, rfl, rfl⟩

/-- C6 witness: on a concrete open native transaction the second Commit
through the wrapper returns the native transaction-already-finished error, and
on a concrete already-committed one the first wrapper Commit does. -/
theorem C6_commit_state_machine_witness :
    (((Sql.tx.mk sampleOpenTx).Commit).1.Commit).2 = some DatabaseSql.errTxDone ∧
    ((Sql.tx.mk sampleDoneTx).Commit).2 = some DatabaseSql.errTxDone :=
  ⟨(C6_commit_state_machine.2.1 (Sql.tx.mk sampleOpenTx) rfl).1,
   (C6_commit_state_machine.2.2.1 (Sql.tx.mk sampleDoneTx) rfl).1⟩

/-- C7: wrapping then unwrapping is the identity — StdDB, StdStmt and StdTx
return exactly the native handle the wrapper was built around, and the DB
wrapper returned by a successful Open exposes via StdDB the very handle the
native open call produced. -/
theorem C7_wrap_unwrap_identity :
    (∀ h : DatabaseSql.DB, (Sql.db.mk h).StdDB = h) ∧
    (∀ s : DatabaseSql.Stmt, (Sql.stmt.mk s).StdStmt = s) ∧
    (∀ t : DatabaseSql.Tx, (Sql.tx.mk t).StdTx = t) ∧
    (∀ (nativeOpen : GoString → GoString → Except Err DatabaseSql.DB) (dn dsn : GoString),
      Option.map Sql.db.StdDB (Sql.Open nativeOpen dn dsn).1 = okOf (nativeOpen dn dsn)) := by
  refine ⟨fun h => rfl, fun s => rfl, fun t => rfl, ?_⟩
  intro nativeOpen dn dsn
  cases h : nativeOpen dn dsn <;>
    simp [Sql.Open, Sql.db.StdDB, okOf, h]

/-- C8: every re-exported value type of the alias layer is identity-equivalent
to the corresponding native type — the alias IS the native type, so the type
equality holds definitionally with no conversion. -/
theorem C8_aliases_transparent :
    Sql.TxOptions = DatabaseSql.TxOptions ∧
    Sql.Row = DatabaseSql.Row ∧
    Sql.Rows = DatabaseSql.Rows ∧
    Sql.IsolationLevel = DatabaseSql.IsolationLevel ∧
    Sql.Result = DatabaseSql.Result ∧
    Sql.NamedArg = DatabaseSql.NamedArg ∧
    Sql.NullBool = DatabaseSql.NullBool ∧
    Sql.NullFloat64 = DatabaseSql.NullFloat64 ∧
    Sql.NullInt32 = DatabaseSql.NullInt32 ∧
    Sql.NullInt64 = DatabaseSql.NullInt64 ∧
    Sql.NullString = DatabaseSql.NullString ∧
    Sql.NullTime = DatabaseSql.NullTime ∧
    Sql.Out = DatabaseSql.Out ∧
    Sql.RawBytes = DatabaseSql.RawBytes ∧
    Sql.DBStats = DatabaseSql.DBStats :=
  ⟨rfl, rfl, rfl, rfl, rfl, rfl, rfl, rfl, rfl, rfl, rfl, rfl, rfl, rfl, rfl⟩

/-- C9: both native row shapes satisfy the Scanner interface without
adaptation — viewing a single-row handle or a row-set handle as a Scanner
preserves its own Scan behavior on every destination list exactly. -/
theorem C9_row_and_rows_are_scanners :
    (∀ (r : Sql.Row) (dest : List Arg),
      (Sql.rowAsScanner r).Scan dest = DatabaseSql.Row.Scan r dest) ∧
    (∀ (rs : Sql.Rows) (dest : List Arg),
      (Sql.rowsAsScanner rs).Scan dest = DatabaseSql.Rows.Scan rs dest) :=
  ⟨fun _ _ => rfl, fun _ _ => rfl⟩

/-- C10: no wrapper method guards against a missing native handle — at the
pointer level, every operation on a nil embedded handle faults by
dereferencing nil (it never returns an error value from this layer), and on
any non-nil handle it delegates unconditionally to the native call, so only
wrappers holding a non-nil handle are safe to use. -/
theorem C10_no_nil_guard :
    (∀ ctx : Ctx, Sql.db.PingP none ctx = Sql.Res.nilDeref) ∧
    (∀ (ctx : Ctx) (q : GoString), Sql.db.PrepareP none ctx q = Sql.Res.nilDeref) ∧
    (∀ (ctx : Ctx) (opts : Option Sql.TxOptions),
      Sql.db.BeginTxP none ctx opts = Sql.Res.nilDeref) ∧
    (∀ (ctx : Ctx) (q : GoString) (args : List Arg),
      Sql.db.ExecP none ctx q args = Sql.Res.nilDeref ∧
      Sql.db.QueryP none ctx q args = Sql.Res.nilDeref ∧
      Sql.db.QueryRowP none ctx q args = Sql.Res.nilDeref) ∧
    (∀ (ctx : Ctx) (args : List Arg),
      Sql.stmt.ExecP none ctx args = Sql.Res.nilDeref ∧
      Sql.stmt.QueryP none ctx args = Sql.Res.nilDeref ∧
      Sql.stmt.QueryRowP none ctx args = Sql.Res.nilDeref) ∧
    (Sql.stmt.CloseP none = Sql.Res.nilDeref) ∧
    (Sql.tx.CommitP none = Sql.Res.nilDeref) ∧
    (Sql.tx.RollbackP none = Sql.Res.nilDeref) ∧
    (∀ (ctx : Ctx) (q : GoString), Sql.tx.PrepareP none ctx q = Sql.Res.nilDeref) ∧
    (∀ (ctx : Ctx) (q : GoString) (args : List Arg),
      Sql.tx.ExecP none ctx q args = Sql.Res.nilDeref ∧
      Sql.tx.QueryP none ctx q args = Sql.Res.nilDeref ∧
      Sql.tx.QueryRowP none ctx q args = Sql.Res.nilDeref) ∧
    (∀ (h : DatabaseSql.DB) (ctx : Ctx),
      Sql.db.PingP (some h) ctx = Sql.Res.ok (h.PingContext ctx)) ∧
    (∀ (h : DatabaseSql.DB) (ctx : Ctx) (q : GoString),
      Sql.db.PrepareP (some h) ctx q = Sql.Res.ok (h.PrepareContext ctx q)) ∧
    (∀ (h : DatabaseSql.DB) (ctx : Ctx) (opts : Option Sql.TxOptions),
      Sql.db.BeginTxP (some h) ctx opts = Sql.Res.ok (h.BeginTx ctx opts)) ∧
    (∀ (h : DatabaseSql.DB) (ctx : Ctx) (q : GoString) (args : List Arg),
      Sql.db.ExecP (some h) ctx q args = Sql.Res.ok (h.ExecContext ctx q args) ∧
      Sql.db.QueryP (some h) ctx q args = Sql.Res.ok (h.QueryContext ctx q args) ∧
      Sql.db.QueryRowP (some h) ctx q args = Sql.Res.ok (h.QueryRowContext ctx q args)) ∧
    (∀ (h : DatabaseSql.Stmt) (ctx : Ctx) (args : List Arg),
      Sql.stmt.ExecP (some h) ctx args = Sql.Res.ok (h.ExecContext ctx args) ∧
      Sql.stmt.QueryP (some h) ctx args = Sql.Res.ok (h.QueryContext ctx args) ∧
      Sql.stmt.QueryRowP (some h) ctx args = Sql.Res.ok (h.QueryRowContext ctx args)) ∧
    (∀ h : DatabaseSql.Stmt, Sql.stmt.CloseP (some h) = Sql.Res.ok h.Close) ∧
    (∀ h : DatabaseSql.Tx, Sql.tx.CommitP (some h) = Sql.Res.ok h.Commit) ∧
    (∀ h : DatabaseSql.Tx, Sql.tx.RollbackP (some h) = Sql.Res.ok h.Rollback) ∧
    (∀ (h : DatabaseSql.Tx) (ctx : Ctx) (q : GoString),
      Sql.tx.PrepareP (some h) ctx q = Sql.Res.ok (h.PrepareContext ctx q)) ∧
    (∀ (h : DatabaseSql.Tx) (ctx : Ctx) (q : GoString) (args : List Arg),
      Sql.tx.ExecP (some h) ctx q args = Sql.Res.ok (h.ExecContext ctx q args) ∧
      Sql.tx.QueryP (some h) ctx q args = Sql.Res.ok (h.QueryContext ctx q args) ∧
      Sql.tx.QueryRowP (some h) ctx q args = Sql.Res.ok (h.QueryRowContext ctx q args)) := by
  refine ⟨?_, ?_, ?_, ?_, ?_, ?_, ?_, ?_, ?_, ?_, ?_, ?_, ?_, ?_, ?_, ?_, ?_, ?_, ?_, ?_⟩ <;>
    intros <;> first
    | exact ⟨rfl, rfl, rfl⟩
    | rfl
